import Mathlib

/-!
Verification of the MLOps demonstration training pipeline (`src/train.py`).

The pipeline is a thin driver around scikit-learn: it generates a synthetic
classification dataset (`create_synthetic_data`), splits and standardizes it
(`preprocess_data`), trains a random-forest model (`train_model`), evaluates it
(`evaluate_model`), persists three artifact files (`save_model_and_artifacts`),
and wraps the whole run in a try/except that exits with status 1 on failure
(`main`).

The embedding below translates each of those functions.  Library calls
(`make_classification`, `train_test_split`, `StandardScaler`,
`accuracy_score`) are modelled from scikit-learn's documented behaviour:
their parameter validation and the structure of their outputs are translated
faithfully, while their pseudo-random numeric streams are modelled by an
explicit deterministic generator (a 64-bit LCG standing in for MT19937) —
no claim below depends on the numeric values of the stream, only on
determinism, shapes, index bookkeeping and validation.
-/

namespace MLOps

/-- Error kinds produced by the pipeline, following the spec's taxonomy.
Scikit-learn raises `ValueError` in all the cases modelled here; the spec
classifies generator-parameter failures as `InvalidArgument` and
split/shape failures as `DataShapeError`.  The message strings are kept to
distinguish the individual validation conditions. -/
inductive ErrKind where
  | invalidArgument (msg : String)
  | dataShape (msg : String)
  deriving Repr, DecidableEq

/-- Kind tag of a persisted artifact file. -/
inductive ArtifactKind where
  | model
  | scaler
  | metricsJson
  deriving Repr, DecidableEq

/-- One filesystem write performed by the pipeline: a path and what was
written there. -/
structure WriteEvent where
  path : String
  kind : ArtifactKind
  deriving Repr, DecidableEq

/-- Result discriminator for `Except`. -/
def isOk {ε α : Type} : Except ε α → Bool
  | .ok _ => true
  | .error _ => false

/-- Sample matrix: rows are samples, columns are features (numeric values
modelled as rationals). -/
abbrev Matrix := List (List ℚ)

/-- Label vector: one integer class label per row. -/
abbrev Labels := List Int

/-- One step of the deterministic pseudo-random stream (a 64-bit linear
congruential generator modelling numpy's seeded MT19937 stream). -/
def lcg (s : Nat) : Nat :=
  (6364136223846793005 * s + 1442695040888963407) % 18446744073709551616

/-- The `k`-th value of the stream seeded with `seed`. -/
def rngAt (seed : Nat) : Nat → Nat
  | 0 => lcg seed
  | k + 1 => lcg (rngAt seed k)

/-- A pseudo-random rational in [0,1) drawn from the stream. -/
def rndQ (seed k : Nat) : ℚ := (rngAt seed k % 1000 : ℚ) / 1000

/-- A pseudo-random binary class label drawn from the stream (abstracting
cluster assignment followed by the row shuffle in `make_classification`). -/
def rndLabel (seed k : Nat) : Int := Int.ofNat (rngAt seed k % 2)

/-- Model of `sklearn.datasets.make_classification` with the pipeline's
relevant keyword arguments.  Translated validation, in scikit-learn's order:
the `@validate_params` decorator first requires `n_samples` and `n_features`
to be integers in `[1, inf)` (raising `InvalidParameterError`, a
`ValueError`, before the function body runs; the decorator also validates
the remaining arguments, which the pipeline's fixed `n_informative=15`,
`n_redundant=5` always satisfy); then the body checks that the
informative/redundant feature budget fits into `nFeatures` (`n_repeated` is
0 here) and that the informative features accommodate
`n_classes * n_clusters_per_class = 4` clusters (`n_informative ≥ log2 4 = 2`).
`randomState = some s` seeds a fresh generator with `s`; `none` would fall
back to the ambient global entropy. -/
def make_classification (nSamples nFeatures nInf nRed : Int)
    (randomState : Option Nat) (globalEntropy : Nat) :
    Except ErrKind (Matrix × Labels) :=
  if nSamples < 1 then
    .error (.invalidArgument
      "The n_samples parameter of make_classification must be an int in the range [1, inf)")
  else if nFeatures < 1 then
    .error (.invalidArgument
      "The n_features parameter of make_classification must be an int in the range [1, inf)")
  else if nInf + nRed > nFeatures then
    .error (.invalidArgument
      "Number of informative, redundant and repeated features must sum to less than the number of total features")
  else if nInf < 2 then
    .error (.invalidArgument
      "n_classes(2) * n_clusters_per_class(2) must be smaller or equal 2**n_informative")
  else
    let seed := randomState.getD globalEntropy
    let n := nSamples.toNat
    let f := nFeatures.toNat
    .ok ((List.range n).map fun i => (List.range f).map fun j => rndQ seed (i * f + j),
         (List.range n).map fun i => rndLabel seed (n * f + i))

/-- Translation of `create_synthetic_data` (src/train.py lines 26–37): calls
`make_classification` with `n_informative=15`, `n_redundant=5` and the fixed
constant `random_state=42`.  The ambient entropy argument models the state
numpy's global generator would contribute if no seed were given. -/
def create_synthetic_data (nSamples nFeatures : Int) (globalEntropy : Nat) :
    Except ErrKind (Matrix × Labels) :=
  make_classification nSamples nFeatures 15 5 (some 42) globalEntropy

/-- File writes performed by `create_synthetic_data`: none — its body only
logs and calls `make_classification`, which allocates in-memory arrays. -/
def generatorWrites : List WriteEvent := []

/-- Indices of the rows of `y` carrying class label `c`. -/
def classIdx (y : Labels) (c : Int) : List Nat :=
  (List.range y.length).filter (fun i => decide (y.getD i 0 = c))

/-- Number of test rows for `n` samples at `test_size=0.2`:
`ceil(0.2 * n) = ceil(n / 5)` (the float product is exact enough that the
ceiling agrees with the rational one for all machine-size `n`). -/
def nTestOf (n : Nat) : Nat := (n + 4) / 5

/-- Proportional floor allocation of `nTe` test slots over the class
counts (first step of scikit-learn's approximate-mode allocation). -/
def floorAlloc (nTe n : Nat) (counts : List Nat) : List Nat :=
  counts.map (fun cnt => nTe * cnt / n)

/-- Hand the remaining test slots to the earliest classes, one each
(modelling the remainder step of the approximate-mode allocation; the claims
below do not depend on which classes receive the remainder). -/
def distributeRem : Nat → List Nat → List Nat
  | _, [] => []
  | 0, l => l
  | r + 1, a :: rest => (a + 1) :: distributeRem r rest

/-- Per-class test-row counts for `nTe` test slots over `counts`. -/
def testAlloc (nTe n : Nat) (counts : List Nat) : List Nat :=
  distributeRem (nTe - (floorAlloc nTe n counts).sum) (floorAlloc nTe n counts)

/-- Fisher–Yates shuffle, fuelled by the list length: repeatedly extract the
element at the stream-chosen position. -/
def shuffleGo {α : Type} : Nat → Nat → List α → List α
  | 0, _, _ => []
  | _ + 1, _, [] => []
  | fuel + 1, s, a :: t =>
    let l := a :: t
    let k := s % l.length
    l.get ⟨k, Nat.mod_lt _ (Nat.succ_pos t.length)⟩ ::
      shuffleGo fuel (lcg s) (l.eraseIdx k)

/-- Shuffle of a list driven by the stream seeded with `s` (modelling
`rng.permutation`). -/
def shuffle {α : Type} (s : Nat) (l : List α) : List α := shuffleGo l.length s l

/-- Derived seed for an auxiliary draw of the split's generator. -/
def mixSeed (seed i : Nat) : Nat := lcg (seed + 1000003 * i)

/-- Per-class split piece: shuffle the indices of class `p.1` and hand the
last `p.2` of them to the test side, the rest to the train side. -/
def classPiece (seed : Nat) (y : Labels) (p : Int × Nat) : List Nat × List Nat :=
  let li := shuffle (mixSeed seed p.1.natAbs) (classIdx y p.1)
  (li.take (li.length - p.2), li.drop (li.length - p.2))

/-- The distinct classes of `y` paired with their allocated test counts. -/
def classTable (y : Labels) : List (Int × Nat) :=
  y.dedup.zip
    (testAlloc (nTestOf y.length) y.length (y.dedup.map (fun c => (classIdx y c).length)))

/-- Model of the index bookkeeping of `train_test_split(..., test_size=0.2,
random_state=seed, stratify=y)` (scikit-learn's `StratifiedShuffleSplit`):
group row indices by class, shuffle each class's indices, assign each class
its allocated number of test rows and the rest to the train side, then
shuffle the two concatenated index lists.  Returns (train indices, test
indices). -/
def splitIndices (seed : Nat) (y : Labels) : List Nat × List Nat :=
  let pieces := (classTable y).map (classPiece seed y)
  let trainIdx := (pieces.map Prod.fst).flatten
  let testIdx := (pieces.map Prod.snd).flatten
  (shuffle (mixSeed seed 999) trainIdx, shuffle (mixSeed seed 998) testIdx)

/-- Validation performed by `train_test_split` with stratification, in
scikit-learn's order: consistent lengths of `X` and `y`
(`check_consistent_length`), a nonempty train side
(`_validate_shuffle_split`), every class populated with at least 2 members,
and train and test sides each at least as large as the number of classes
(`StratifiedShuffleSplit._iter_indices`).  All raise `ValueError`, the
spec's `DataShapeError` kind. -/
def stratifyErr (X : Matrix) (y : Labels) : Option ErrKind :=
  if X.length ≠ y.length then
    some (.dataShape "Found input variables with inconsistent numbers of samples")
  else if y.length - nTestOf y.length = 0 then
    some (.dataShape "With the given n_samples and test_size the resulting train set will be empty")
  else if ∃ c ∈ y.dedup, (classIdx y c).length < 2 then
    some (.dataShape "The least populated class in y has only 1 member, which is too few")
  else if y.length - nTestOf y.length < y.dedup.length then
    some (.dataShape "The train_size should be greater or equal to the number of classes")
  else if nTestOf y.length < y.dedup.length then
    some (.dataShape "The test_size should be greater or equal to the number of classes")
  else
    none

/-- Rows of `X` selected by the index list (fancy indexing `X[idx]`). -/
def rowsAt (X : Matrix) (idx : List Nat) : Matrix := idx.map (fun i => X.getD i [])

/-- Entries of `y` selected by the index list (`y[idx]`). -/
def labelsAt (y : Labels) (idx : List Nat) : Labels := idx.map (fun i => y.getD i 0)

/-- Fitted state of `sklearn.preprocessing.StandardScaler`: per-feature mean
and (biased) variance.  The scaler's divisor `scale_` is the square root of
the variance; the square root leaves ℚ, so the transform below takes the
square-root function as an explicit parameter — no claim depends on its
values. -/
structure Scaler where
  mean : List ℚ
  var : List ℚ
  deriving Repr, DecidableEq

/-- Arithmetic mean of a list of rationals. -/
def meanQ (l : List ℚ) : ℚ := l.sum / l.length

/-- Biased variance (`ddof=0`, as `StandardScaler` uses) of a list. -/
def varQ (l : List ℚ) : ℚ := ((l.map (fun x => (x - meanQ l) ^ 2)).sum) / l.length

/-- Number of feature columns of a matrix. -/
def numColsOf (M : Matrix) : Nat := (M.headD []).length

/-- Column `j` of a matrix. -/
def column (M : Matrix) (j : Nat) : List ℚ := M.map (fun r => r.getD j 0)

/-- Model of `StandardScaler().fit(M)`: per-column mean and variance of `M`. -/
def standardScalerFit (M : Matrix) : Scaler :=
  { mean := (List.range (numColsOf M)).map (fun j => meanQ (column M j)),
    var := (List.range (numColsOf M)).map (fun j => varQ (column M j)) }

/-- Per-feature divisor of the transform: `sqrt(var)`, with zero variance
mapped to 1 (`_handle_zeros_in_scale`). -/
def scaleOf (sqrtFn : ℚ → ℚ) (v : ℚ) : ℚ := if v = 0 then 1 else sqrtFn v

/-- Model of `scaler.transform(M)`: centre by the fitted mean and divide by
the fitted scale, feature by feature. -/
def scalerTransform (sqrtFn : ℚ → ℚ) (sc : Scaler) (M : Matrix) : Matrix :=
  M.map (fun r => (List.range sc.mean.length).map (fun j =>
    (r.getD j 0 - sc.mean.getD j 0) / scaleOf sqrtFn (sc.var.getD j 0)))

/-- Fixed `random_state=42` of the split in `preprocess_data`. -/
def splitSeed : Nat := 42

/-- Translation of `preprocess_data` (src/train.py lines 40–53): stratified
80/20 split with seed 42, then a `StandardScaler` fitted on the train rows
and applied to both sides.  Returns (scaled train X, scaled test X, train y,
test y, fitted scaler). -/
def preprocess_data (sqrtFn : ℚ → ℚ) (X : Matrix) (y : Labels) :
    Except ErrKind (Matrix × Matrix × Labels × Labels × Scaler) :=
  match stratifyErr X y with
  | some e => .error e
  | none =>
    let idx := splitIndices splitSeed y
    let Xtr := rowsAt X idx.1
    let scaler := standardScalerFit Xtr
    .ok (scalerTransform sqrtFn scaler Xtr,
         scalerTransform sqrtFn scaler (rowsAt X idx.2),
         labelsAt y idx.1, labelsAt y idx.2, scaler)

/-- Fitted scaler component of a `preprocess_data` result. -/
def scalerOfResult (r : Except ErrKind (Matrix × Matrix × Labels × Labels × Scaler)) :
    Option Scaler :=
  match r with
  | .ok out => some out.2.2.2.2
  | .error _ => none

/-- File writes performed by `preprocess_data`: none (logging and in-memory
array work only). -/
def preprocessorWrites : List WriteEvent := []

/-- File writes performed by `train_model`: none (the random-forest fit is
in-memory). -/
def trainerWrites : List WriteEvent := []

/-- Match count between true and predicted labels, pairing by index. -/
def matchCount (yTrue yPred : Labels) : Nat :=
  List.countP (fun p => decide (p.1 = p.2)) (yTrue.zip yPred)

/-- Model of `sklearn.metrics.accuracy_score(y_true, y_pred)`: the fraction
of index positions where the two label vectors agree. -/
def accuracy_score (yTrue yPred : Labels) : ℚ :=
  (matchCount yTrue yPred : ℚ) / yTrue.length

/-- Per-class entry of the classification report. -/
structure ClassMetrics where
  precision : ℚ
  recallScore : ℚ
  f1 : ℚ
  support : Nat
  deriving Repr, DecidableEq

/-- Model of `sklearn.metrics.classification_report(..., output_dict=True)`
restricted to the per-class entries: precision, recall, F1 and support per
observed label (a ratio with empty denominator is reported as 0). -/
def classReport (yTrue yPred : Labels) : List (Int × ClassMetrics) :=
  (yTrue ++ yPred).dedup.map (fun c =>
    let tp := List.countP (fun p => decide (p.1 = c ∧ p.2 = c)) (yTrue.zip yPred)
    let predC := List.countP (fun x => decide (x = c)) yPred
    let trueC := List.countP (fun x => decide (x = c)) yTrue
    let prec : ℚ := if predC = 0 then 0 else (tp : ℚ) / predC
    let recl : ℚ := if trueC = 0 then 0 else (tp : ℚ) / trueC
    (c, { precision := prec, recallScore := recl,
          f1 := if prec + recl = 0 then 0 else 2 * prec * recl / (prec + recl),
          support := trueC }))

/-- Metrics record assembled by `evaluate_model`: accuracy, per-class
report, creation timestamp. -/
structure Metrics where
  accuracy : ℚ
  classification_report : List (Int × ClassMetrics)
  timestamp : String
  deriving Repr, DecidableEq

/-- Translation of `evaluate_model` (src/train.py lines 73–88).  The fitted
model enters only through its `predict` function (spec 4.3: the model is
polymorphic in supporting `predict`); `now` is the ambient clock value read
by `datetime.now().isoformat()`. -/
def evaluate_model (predict : List ℚ → Int) (Xtest : Matrix) (ytest : Labels)
    (now : String) : Metrics :=
  let yPred := Xtest.map predict
  { accuracy := accuracy_score ytest yPred,
    classification_report := classReport ytest yPred,
    timestamp := now }

/-- File writes performed by `evaluate_model`: none. -/
def evaluatorWrites : List WriteEvent := []

/-- Fixed artifacts directory: `<repo-root>/models` (in the source,
`os.path.join(os.path.dirname(os.path.dirname(__file__)), "models")`). -/
def modelsDir : String := "models"

/-- Default model name of `save_model_and_artifacts`. -/
def defaultModelName : String := "random_forest_model"

/-- Translation of `save_model_and_artifacts` (src/train.py lines 91–114):
under the fixed models directory, write the pickled model, then the pickled
scaler, then the metrics JSON, all named with the model name and the single
timestamp `ts` read once from the clock; return the model file's path.  The
serialized byte contents are elided — each write event records its path and
artifact kind. -/
def save_model_and_artifacts (metrics : Metrics) (modelName : String)
    (ts : String) : List WriteEvent × String :=
  let modelPath := modelsDir ++ "/" ++ modelName ++ "_" ++ ts ++ ".pkl"
  let scalerPath := modelsDir ++ "/" ++ modelName ++ "_scaler_" ++ ts ++ ".pkl"
  let metricsPath := modelsDir ++ "/" ++ modelName ++ "_metrics_" ++ ts ++ ".json"
  ([⟨modelPath, .model⟩, ⟨scalerPath, .scaler⟩, ⟨metricsPath, .metricsJson⟩],
   modelPath)

/-- The five pipeline stages called by `main`. -/
inductive Stage where
  | generateData
  | preprocessData
  | trainModel
  | evaluateModel
  | persistArtifacts
  deriving Repr, DecidableEq

/-- Outcome of each stage for one run of `main`.  The stage bodies are
abstracted to their results: the embedded stages above are total functions,
and this record also covers failures the embedding does not enumerate (model
fitting failures, I/O errors during persistence). -/
structure StageOutcomes where
  gen : Except ErrKind Unit
  pre : Except ErrKind Unit
  fit : Except ErrKind Unit
  eva : Except ErrKind Unit
  sav : Except ErrKind Unit

/-- The try-block of `main` (src/train.py lines 121–139): run the five
stages in order, stopping at the first failure; the result records which
stage failed with which error. -/
def runStages (o : StageOutcomes) : Except (Stage × ErrKind) Unit :=
  match o.gen with
  | .error e => .error (.generateData, e)
  | .ok _ =>
    match o.pre with
    | .error e => .error (.preprocessData, e)
    | .ok _ =>
      match o.fit with
      | .error e => .error (.trainModel, e)
      | .ok _ =>
        match o.eva with
        | .error e => .error (.evaluateModel, e)
        | .ok _ =>
          match o.sav with
          | .error e => .error (.persistArtifacts, e)
          | .ok _ => .ok ()

/-- Translation of `main` (src/train.py lines 117–143): the except-clause
catches any stage failure, logs it and calls `sys.exit(1)`; a run in which
every stage succeeds falls off the end of `main` and the process exits with
status 0. -/
def main (o : StageOutcomes) : Nat :=
  match runStages o with
  | .ok _ => 0
  | .error _ => 1

/-- File-write trace of one run: each executed stage contributes its writes;
`savEvents` is what the persistence stage managed to write if it ran (all
three artifacts on success, a prefix if an I/O error interrupted it). -/
def pipelineWrites (o : StageOutcomes) (savEvents : List WriteEvent) :
    List WriteEvent :=
  match o.gen with
  | .error _ => generatorWrites
  | .ok _ =>
    generatorWrites ++
      match o.pre with
      | .error _ => preprocessorWrites
      | .ok _ =>
        preprocessorWrites ++
          match o.fit with
          | .error _ => trainerWrites
          | .ok _ =>
            trainerWrites ++
              match o.eva with
              | .error _ => evaluatorWrites
              | .ok _ => evaluatorWrites ++ savEvents

/-- Extracting the element at position `k` and consing it onto the remainder
permutes the list. -/
theorem perm_get_cons_eraseIdx {α : Type} :
    ∀ (l : List α) (k : Nat) (h : k < l.length),
      List.Perm (l.get ⟨k, h⟩ :: l.eraseIdx k) l
  | _ :: _, 0, _ => by simp
  | a :: t, k + 1, h => by
    have ih := perm_get_cons_eraseIdx t k (Nat.lt_of_succ_lt_succ h)
    have hg : (a :: t).get ⟨k + 1, h⟩ = t.get ⟨k, Nat.lt_of_succ_lt_succ h⟩ := rfl
    rw [hg, List.eraseIdx_cons_succ]
    exact (List.Perm.swap a _ _).trans (ih.cons a)

/-- The fuelled Fisher–Yates pass is a permutation when the fuel covers the
list. -/
theorem shuffleGo_perm {α : Type} :
    ∀ (fuel s : Nat) (l : List α), l.length ≤ fuel →
      List.Perm (shuffleGo fuel s l) l
  | 0, _, [], _ => by simp [shuffleGo]
  | 0, _, _ :: _, h => by simp at h
  | _ + 1, _, [], _ => by simp [shuffleGo]
  | fuel + 1, s, a :: t, h => by
    have hk : s % (a :: t).length < (a :: t).length :=
      Nat.mod_lt _ (Nat.succ_pos t.length)
    have hlen : ((a :: t).eraseIdx (s % (a :: t).length)).length ≤ fuel := by
      rw [List.length_eraseIdx_of_lt hk]
      simp only [List.length_cons] at h ⊢
      omega
    have ih := shuffleGo_perm fuel (lcg s) ((a :: t).eraseIdx (s % (a :: t).length)) hlen
    exact (ih.cons _).trans (perm_get_cons_eraseIdx _ _ hk)

/-- A shuffle is a permutation of its input. -/
theorem shuffle_perm {α : Type} (s : Nat) (l : List α) :
    List.Perm (shuffle s l) l :=
  shuffleGo_perm _ _ _ le_rfl

/-- Distributing the remainder slots keeps the allocation's length. -/
theorem distributeRem_length :
    ∀ (r : Nat) (l : List Nat), (distributeRem r l).length = l.length
  | _, [] => by cases ‹Nat› <;> rfl
  | 0, _ :: _ => rfl
  | r + 1, _ :: rest => by
    simp [distributeRem, distributeRem_length r rest]

/-- A sum of indicator values over a list avoiding `x` vanishes. -/
theorem sum_map_ite_zero (x : Int) (v : Nat) :
    ∀ (cl : List Int), (∀ c ∈ cl, x ≠ c) →
      ((cl.map (fun c => if x = c then v else 0)).sum) = 0
  | [], _ => rfl
  | c :: cs, h => by
    have hc : x ≠ c := h c (by simp)
    simp only [List.map_cons, List.sum_cons, if_neg hc, Nat.zero_add]
    exact sum_map_ite_zero x v cs (fun k hk => h k (by simp [hk]))

/-- Summing an indicator over a duplicate-free list containing `x` yields the
indicated value. -/
theorem sum_map_ite (x : Int) (v : Nat) :
    ∀ (cl : List Int), cl.Nodup → x ∈ cl →
      ((cl.map (fun c => if x = c then v else 0)).sum) = v
  | c :: cs, hnd, hmem => by
    rcases List.mem_cons.mp hmem with hx | hx
    · subst hx
      simp only [List.map_cons, List.sum_cons, if_pos rfl]
      have hrest : ∀ k ∈ cs, x ≠ k := by
        intro k hk he
        exact (List.nodup_cons.mp hnd).1 (he ▸ hk)
      rw [sum_map_ite_zero x v cs hrest]
      simp
    · have hc : x ≠ c := by
        intro he
        exact (List.nodup_cons.mp hnd).1 (he ▸ hx)
      simp only [List.map_cons, List.sum_cons, if_neg hc, Nat.zero_add]
      exact sum_map_ite x v cs (List.nodup_cons.mp hnd).2 hx

/-- Appending the flattenings of two pointwise pieces is a permutation of
flattening the pointwise appends. -/
theorem flatten_map_append_perm {α κ : Type} (F G : κ → List α) :
    ∀ cl : List κ,
      List.Perm ((cl.map F).flatten ++ (cl.map G).flatten)
        ((cl.map (fun c => F c ++ G c)).flatten)
  | [] => by simp
  | c :: cs => by
    simp only [List.map_cons, List.flatten_cons]
    have h2 : List.Perm
        ((cs.map F).flatten ++ (G c ++ (cs.map G).flatten))
        (G c ++ ((cs.map F).flatten ++ (cs.map G).flatten)) := by
      rw [← List.append_assoc, ← List.append_assoc]
      exact List.Perm.append_right _ List.perm_append_comm
    have h1 : List.Perm
        ((F c ++ (cs.map F).flatten) ++ (G c ++ (cs.map G).flatten))
        ((F c ++ G c) ++ ((cs.map F).flatten ++ (cs.map G).flatten)) := by
      rw [List.append_assoc, List.append_assoc (F c) (G c)]
      exact List.Perm.append_left (F c) h2
    exact h1.trans (List.Perm.append_left _ (flatten_map_append_perm F G cs))

/-- Flattening respects pointwise permutations of the pieces. -/
theorem flatten_map_perm {α κ : Type} (F G : κ → List α) :
    ∀ cl : List κ, (∀ c ∈ cl, List.Perm (F c) (G c)) →
      List.Perm ((cl.map F).flatten) ((cl.map G).flatten)
  | [], _ => by simp
  | c :: cs, h => by
    simp only [List.map_cons, List.flatten_cons]
    exact (h c (by simp)).append
      (flatten_map_perm F G cs (fun k hk => h k (by simp [hk])))

/-- Multiplicity of a row index in one class's index list. -/
theorem count_classIdx (y : Labels) (c : Int) (a : Nat) :
    List.count a (classIdx y c) =
      if a < y.length ∧ y.getD a 0 = c then 1 else 0 := by
  by_cases ha : a < y.length
  · by_cases hc : y.getD a 0 = c
    · rw [if_pos ⟨ha, hc⟩]
      refine List.count_eq_one_of_mem ((List.nodup_range _).filter _) ?_
      simp only [classIdx, List.mem_filter, List.mem_range, decide_eq_true_eq]
      exact ⟨ha, hc⟩
    · rw [if_neg (fun hh => hc hh.2)]
      refine List.count_eq_zero_of_not_mem ?_
      simp only [classIdx, List.mem_filter, List.mem_range, decide_eq_true_eq]
      exact fun hcon => hc hcon.2
  · rw [if_neg (fun hh => ha hh.1)]
    refine List.count_eq_zero_of_not_mem ?_
    simp only [classIdx, List.mem_filter, List.mem_range]
    intro hcon
    exact ha hcon.1

/-- Concatenating the per-class index lists over the distinct classes is a
permutation of all row indices. -/
theorem flatten_classIdx_perm (y : Labels) :
    List.Perm ((y.dedup.map (classIdx y)).flatten) (List.range y.length) := by
  rw [List.perm_iff_count]
  intro a
  rw [List.count_flatten, List.map_map]
  by_cases ha : a < y.length
  · have hmem : y.getD a 0 ∈ y.dedup := by
      rw [List.mem_dedup, List.getD_eq_getElem y 0 ha]
      exact List.getElem_mem ha
    have hpt : (y.dedup.map (List.count a ∘ classIdx y)) =
        (y.dedup.map (fun c => if y.getD a 0 = c then 1 else 0)) := by
      refine List.map_congr_left (fun c _ => ?_)
      simp only [Function.comp_apply, count_classIdx, ha, true_and]
    rw [hpt, sum_map_ite _ _ _ (List.nodup_dedup y) hmem,
      List.count_eq_one_of_mem (List.nodup_range _) (List.mem_range.mpr ha)]
  · have hpt : (y.dedup.map (List.count a ∘ classIdx y)) =
        (y.dedup.map (fun _ => 0)) := by
      refine List.map_congr_left (fun c _ => ?_)
      simp only [Function.comp_apply, count_classIdx]
      rw [if_neg (fun hh => ha hh.1)]
    rw [hpt, List.count_eq_zero_of_not_mem (by simpa using ha)]
    simp

/-- The classes of `classTable` are exactly the distinct classes of `y`. -/
theorem classTable_map_fst (y : Labels) :
    (classTable y).map Prod.fst = y.dedup := by
  refine List.map_fst_zip _ _ ?_
  rw [testAlloc, distributeRem_length, floorAlloc, List.length_map, List.length_map]

/-- The split's train and test indices together permute all row indices of
`y`: the partition is disjoint and exhaustive. -/
theorem splitIndices_partition (seed : Nat) (y : Labels) :
    List.Perm ((splitIndices seed y).1 ++ (splitIndices seed y).2)
      (List.range y.length) := by
  have h1 : List.Perm ((splitIndices seed y).1 ++ (splitIndices seed y).2)
      (((((classTable y).map (classPiece seed y)).map Prod.fst).flatten) ++
       ((((classTable y).map (classPiece seed y)).map Prod.snd).flatten)) :=
    (shuffle_perm _ _).append (shuffle_perm _ _)
  rw [List.map_map, List.map_map] at h1
  have h2 := flatten_map_append_perm (Prod.fst ∘ classPiece seed y)
    (Prod.snd ∘ classPiece seed y) (classTable y)
  have h3 : ((classTable y).map (fun p =>
        (Prod.fst ∘ classPiece seed y) p ++ (Prod.snd ∘ classPiece seed y) p)) =
      ((classTable y).map (fun p =>
        shuffle (mixSeed seed p.1.natAbs) (classIdx y p.1))) :=
    List.map_congr_left (fun p _ => List.take_append_drop _ _)
  rw [h3] at h2
  have h4 := flatten_map_perm
    (fun p : Int × Nat => shuffle (mixSeed seed p.1.natAbs) (classIdx y p.1))
    (fun p : Int × Nat => classIdx y p.1) (classTable y)
    (fun p _ => shuffle_perm _ _)
  have h5 : ((classTable y).map (fun p : Int × Nat => classIdx y p.1)) =
      (y.dedup.map (classIdx y)) := by
    have hcomp : (fun p : Int × Nat => classIdx y p.1) =
        (classIdx y) ∘ Prod.fst := rfl
    rw [hcomp, ← List.map_map, classTable_map_fst]
  rw [h5] at h4
  exact h1.trans (h2.trans (h4.trans (flatten_classIdx_perm y)))

/-- Accepted inputs have aligned sample and label counts. -/
theorem stratifyErr_none_align {X : Matrix} {y : Labels}
    (h : stratifyErr X y = none) : X.length = y.length := by
  by_contra hne
  rw [stratifyErr, if_pos hne] at h
  exact Option.noConfusion h

/-- A successful preprocessing run passed the split validation. -/
theorem preprocess_ok_stratifyErr {f : ℚ → ℚ} {X : Matrix} {y : Labels}
    (h : isOk (preprocess_data f X y) = true) : stratifyErr X y = none := by
  cases he : stratifyErr X y with
  | none => rfl
  | some e => simp [preprocess_data, he, isOk] at h

/-- C1: two invocations of the Data Generator with the same sample and
feature counts produce identical matrices and labels, whatever the ambient
entropy, because `random_state` is the fixed constant 42. -/
theorem create_synthetic_data_deterministic (n f : Int) (g₁ g₂ : Nat) :
    create_synthetic_data n f g₁ = create_synthetic_data n f g₂ := rfl

/-- C9: the generator hardcodes 15 informative + 5 redundant features, so
every call with a feature count below 20 raises an `InvalidArgument` error —
the feature-budget message once the parameter validation is passed — and a
run that completes without error must have had at least 20 features. -/
theorem create_synthetic_data_needs_20_features (n f : Int) (g : Nat) :
    (f < 20 → ∃ m, create_synthetic_data n f g = .error (.invalidArgument m)) ∧
    (1 ≤ n → 1 ≤ f → f < 20 → create_synthetic_data n f g =
      .error (.invalidArgument
        "Number of informative, redundant and repeated features must sum to less than the number of total features")) ∧
    (isOk (create_synthetic_data n f g) = true → 20 ≤ f) := by
  have herr : f < 20 →
      ∃ m, create_synthetic_data n f g = .error (.invalidArgument m) := by
    intro hf
    simp only [create_synthetic_data, make_classification]
    by_cases h0 : n < 1
    · rw [if_pos h0]; exact ⟨_, rfl⟩
    · rw [if_neg h0]
      by_cases hf0 : f < 1
      · rw [if_pos hf0]; exact ⟨_, rfl⟩
      · rw [if_neg hf0, if_pos (by omega)]; exact ⟨_, rfl⟩
  refine ⟨herr, ?_, ?_⟩
  · intro hn hf1 hf
    simp only [create_synthetic_data, make_classification]
    rw [if_neg (by omega), if_neg (by omega), if_pos (by omega)]
  · intro h
    by_contra hf
    obtain ⟨m, hm⟩ := herr (by omega)
    rw [hm] at h
    simp [isOk] at h

/-- Witness for C9 at the concrete input (1000 samples, 10 features). -/
theorem create_synthetic_data_needs_20_features_witness :
    create_synthetic_data 1000 10 0 = .error (.invalidArgument
      "Number of informative, redundant and repeated features must sum to less than the number of total features") :=
  (create_synthetic_data_needs_20_features 1000 10 0).2.1
    (by norm_num) (by norm_num) (by norm_num)

/-- C4 counterexample: at the positive-integer input (1000 samples, 10
features) the generator fails — the hardcoded 15 informative + 5 redundant
features exceed 10 — contradicting the claim that no error occurs for any
positive-integer inputs. -/
theorem create_synthetic_data_positive_input_errors :
    isOk (create_synthetic_data 1000 10 0) = false := rfl

/-- C4 (amended): the generator performs no file I/O at all; every
non-positive sample count or feature count fails with `InvalidArgument`
(the parameter validation), and a call succeeds exactly when the sample
count is positive and the feature count is at least 20 — positive feature
counts below 20 fail the informative + redundant budget check. -/
theorem create_synthetic_data_ok_iff (n f : Int) (g : Nat) :
    (isOk (create_synthetic_data n f g) = true ↔ 1 ≤ n ∧ 20 ≤ f) ∧
    (n < 1 ∨ f < 1 →
      ∃ m, create_synthetic_data n f g = .error (.invalidArgument m)) ∧
    generatorWrites = [] := by
  refine ⟨?_, ?_, rfl⟩
  · simp only [create_synthetic_data, make_classification]
    by_cases h0 : n < 1
    · rw [if_pos h0]; simp [isOk]; omega
    · rw [if_neg h0]
      by_cases hf0 : f < 1
      · rw [if_pos hf0]; simp [isOk]; omega
      · rw [if_neg hf0]
        by_cases h1 : (15 : Int) + 5 > f
        · rw [if_pos h1]; simp [isOk]; omega
        · rw [if_neg h1, if_neg (by norm_num : ¬ (15 : Int) < 2)]
          simp [isOk]; omega
  · intro h
    simp only [create_synthetic_data, make_classification]
    by_cases h0 : n < 1
    · rw [if_pos h0]; exact ⟨_, rfl⟩
    · rw [if_neg h0, if_pos (by omega)]; exact ⟨_, rfl⟩

/-- Witness for the amended C4 at the concrete input (5 samples, 25
features). -/
theorem create_synthetic_data_ok_iff_witness :
    isOk (create_synthetic_data 5 25 0) = true :=
  (create_synthetic_data_ok_iff 5 25 0).1.mpr (by norm_num)

/-- C2: for every dataset accepted by the Preprocessor, the train/test
partition is disjoint and exhaustive — the split's train and test index
lists together are a permutation of the row indices of the original sample
matrix, so every row lands in exactly one subset and none in both. -/
theorem preprocess_partition (f : ℚ → ℚ) (X : Matrix) (y : Labels)
    (h : isOk (preprocess_data f X y) = true) :
    List.Perm ((splitIndices splitSeed y).1 ++ (splitIndices splitSeed y).2)
      (List.range X.length) := by
  rw [stratifyErr_none_align (preprocess_ok_stratifyErr h)]
  exact splitIndices_partition splitSeed y

/-- Witness for C2 on a concrete accepted two-row dataset. -/
theorem preprocess_partition_witness :
    isOk (preprocess_data id [[1], [2]] [0, 0]) = true ∧
    List.Perm ((splitIndices splitSeed [0, 0]).1 ++ (splitIndices splitSeed [0, 0]).2)
      (List.range ([[1], [2]] : Matrix).length) :=
  ⟨rfl, preprocess_partition id [[1], [2]] [0, 0] rfl⟩

/-- C3: the Preprocessor's scaler is exactly the scaler fitted on the train
rows — fitted once, before any transform, never on test data — so two
accepted datasets with identical train rows yield identical scaler
statistics whatever their test rows. -/
theorem preprocess_scaler_train_only (f : ℚ → ℚ)
    (X₁ : Matrix) (y₁ : Labels) (X₂ : Matrix) (y₂ : Labels)
    (h₁ : isOk (preprocess_data f X₁ y₁) = true)
    (h₂ : isOk (preprocess_data f X₂ y₂) = true)
    (htr : rowsAt X₁ (splitIndices splitSeed y₁).1 =
           rowsAt X₂ (splitIndices splitSeed y₂).1) :
    scalerOfResult (preprocess_data f X₁ y₁) =
      some (standardScalerFit (rowsAt X₁ (splitIndices splitSeed y₁).1)) ∧
    scalerOfResult (preprocess_data f X₁ y₁) =
      scalerOfResult (preprocess_data f X₂ y₂) := by
  have e₁ := preprocess_ok_stratifyErr h₁
  have e₂ := preprocess_ok_stratifyErr h₂
  constructor
  · simp [preprocess_data, e₁, scalerOfResult]
  · simp [preprocess_data, e₁, e₂, scalerOfResult, htr]

/-- Witness for C3: two datasets sharing the train row (index 1) but
differing in the test row (index 0) get the same fitted scaler. -/
theorem preprocess_scaler_train_only_witness :
    isOk (preprocess_data id [[5], [7]] [0, 0]) = true ∧
    isOk (preprocess_data id [[9], [7]] [0, 0]) = true ∧
    scalerOfResult (preprocess_data id [[5], [7]] [0, 0]) =
      scalerOfResult (preprocess_data id [[9], [7]] [0, 0]) :=
  ⟨rfl, rfl,
    (preprocess_scaler_train_only id [[5], [7]] [0, 0] [[9], [7]] [0, 0]
      rfl rfl rfl).2⟩

/-- C5 counterexample: a dataset with aligned lengths whose every class has
2 members, yet the Preprocessor fails — its test side (ceil(4/5) = 1 row)
is smaller than the number of classes, a stratification condition beyond
the two the claim's "if and only if" enumerates. -/
theorem preprocess_error_beyond_claim :
    isOk (preprocess_data id [[0], [1], [2], [3]] [0, 0, 1, 1]) = false ∧
    ([[0], [1], [2], [3]] : Matrix).length = ([0, 0, 1, 1] : Labels).length ∧
    (∀ c ∈ ([0, 0, 1, 1] : Labels).dedup, 2 ≤ (classIdx [0, 0, 1, 1] c).length) :=
  ⟨rfl, rfl, by decide⟩

/-- The split validation succeeds exactly when none of its five conditions
trips. -/
theorem stratifyErr_none_iff (X : Matrix) (y : Labels) :
    stratifyErr X y = none ↔
      ¬(X.length ≠ y.length ∨
        y.length - nTestOf y.length = 0 ∨
        (∃ c ∈ y.dedup, (classIdx y c).length < 2) ∨
        y.length - nTestOf y.length < y.dedup.length ∨
        nTestOf y.length < y.dedup.length) := by
  unfold stratifyErr
  split_ifs with h1 h2 h3 h4 h5 <;> simp_all

/-- Every error the split validation produces is of the DataShapeError
kind. -/
theorem stratifyErr_some_shape {X : Matrix} {y : Labels} {e : ErrKind}
    (h : stratifyErr X y = some e) : ∃ m, e = ErrKind.dataShape m := by
  unfold stratifyErr at h
  split_ifs at h <;> exact ⟨_, (Option.some.inj h).symm⟩

/-- C5 (amended): the Preprocessor fails exactly when the sample and label
counts are misaligned, or the train side would be empty, or some class has
fewer than 2 members, or the train or test side is smaller than the number
of classes; and every such failure is of kind DataShapeError. -/
theorem preprocess_error_iff (f : ℚ → ℚ) (X : Matrix) (y : Labels) :
    (isOk (preprocess_data f X y) = false ↔
      (X.length ≠ y.length ∨
       y.length - nTestOf y.length = 0 ∨
       (∃ c ∈ y.dedup, (classIdx y c).length < 2) ∨
       y.length - nTestOf y.length < y.dedup.length ∨
       nTestOf y.length < y.dedup.length)) ∧
    (∀ e, preprocess_data f X y = .error e → ∃ m, e = ErrKind.dataShape m) := by
  constructor
  · cases he : stratifyErr X y with
    | none =>
      have hn := (stratifyErr_none_iff X y).mp he
      simp only [preprocess_data, he, isOk]
      simpa using hn
    | some e =>
      have hn : ¬ stratifyErr X y = none := by simp [he]
      have hd := mt (stratifyErr_none_iff X y).mpr hn
      simp only [preprocess_data, he, isOk]
      simpa using not_not.mp hd
  · intro e hpe
    cases he : stratifyErr X y with
    | none => simp [preprocess_data, he] at hpe
    | some e' =>
      simp only [preprocess_data, he] at hpe
      cases hpe
      exact stratifyErr_some_shape he

/-- Witness for the amended C5 at a concrete misaligned input: one sample
row against two labels fails. -/
theorem preprocess_error_iff_witness :
    isOk (preprocess_data id [[1]] [0, 0]) = false :=
  (preprocess_error_iff id [[1]] [0, 0]).1.mpr (Or.inl (by decide))

/-- C6: one run of the Persister writes exactly three files, in sequence
model then scaler then metrics, all under the fixed models directory, each
path carrying the model name, all three sharing the single timestamp, and
the returned value is the model file's path. -/
theorem save_model_and_artifacts_spec (m : Metrics) (name ts : String) :
    (save_model_and_artifacts m name ts).1 =
      [⟨modelsDir ++ "/" ++ name ++ "_" ++ ts ++ ".pkl", ArtifactKind.model⟩,
       ⟨modelsDir ++ "/" ++ name ++ "_scaler_" ++ ts ++ ".pkl",
         ArtifactKind.scaler⟩,
       ⟨modelsDir ++ "/" ++ name ++ "_metrics_" ++ ts ++ ".json",
         ArtifactKind.metricsJson⟩] ∧
    (save_model_and_artifacts m name ts).1.length = 3 ∧
    (save_model_and_artifacts m name ts).2 =
      modelsDir ++ "/" ++ name ++ "_" ++ ts ++ ".pkl" :=
  ⟨rfl, rfl, rfl⟩

/-- C7: the driver exits 0 exactly when every stage succeeded, exits 1
exactly when some stage failed, and each of the five stages can be the one
that fails (no retries, no local recovery). -/
theorem main_exit_codes :
    (∀ o : StageOutcomes,
      (main o = 0 ↔ runStages o = .ok ()) ∧
      (main o = 1 ↔ ∃ s e, runStages o = .error (s, e))) ∧
    (∀ s : Stage, ∃ o : StageOutcomes, ∃ e : ErrKind,
      runStages o = .error (s, e) ∧ main o = 1) := by
  constructor
  · intro o
    cases h : runStages o with
    | ok u =>
      cases u
      have hm : main o = 0 := by simp [main, h]
      refine ⟨⟨fun _ => rfl, fun _ => hm⟩, ?_, ?_⟩
      · intro h1
        rw [hm] at h1
        exact absurd h1 zero_ne_one
      · rintro ⟨s, e, hc⟩
        exact absurd hc (by simp)
    | error p =>
      obtain ⟨s, e⟩ := p
      have hm : main o = 1 := by simp [main, h]
      refine ⟨⟨?_, ?_⟩, fun _ => ⟨s, e, rfl⟩, fun _ => hm⟩
      · intro h0
        rw [hm] at h0
        exact absurd h0 one_ne_zero
      · intro hc
        exact absurd hc (by simp)
  · intro s
    cases s
    · exact ⟨⟨.error (.invalidArgument "e"), .ok (), .ok (), .ok (), .ok ()⟩,
        .invalidArgument "e", rfl, rfl⟩
    · exact ⟨⟨.ok (), .error (.dataShape "e"), .ok (), .ok (), .ok ()⟩,
        .dataShape "e", rfl, rfl⟩
    · exact ⟨⟨.ok (), .ok (), .error (.invalidArgument "e"), .ok (), .ok ()⟩,
        .invalidArgument "e", rfl, rfl⟩
    · exact ⟨⟨.ok (), .ok (), .ok (), .error (.invalidArgument "e"), .ok ()⟩,
        .invalidArgument "e", rfl, rfl⟩
    · exact ⟨⟨.ok (), .ok (), .ok (), .ok (), .error (.invalidArgument "e")⟩,
        .invalidArgument "e", rfl, rfl⟩

/-- C8: the accuracy reported by the Evaluator lies in [0, 1], and when the
model predicts every test label correctly — as a fitted classifier does on
a trivially separable dataset — it equals 1. -/
theorem evaluate_model_accuracy (predict : List ℚ → Int) (Xtest : Matrix)
    (ytest : Labels) (now : String)
    (hn : 0 < ytest.length) (hlen : Xtest.length = ytest.length) :
    0 ≤ (evaluate_model predict Xtest ytest now).accuracy ∧
    (evaluate_model predict Xtest ytest now).accuracy ≤ 1 ∧
    ((∀ i, i < Xtest.length → predict (Xtest.getD i []) = ytest.getD i 0) →
      (evaluate_model predict Xtest ytest now).accuracy = 1) := by
  have hzl : (ytest.zip (Xtest.map predict)).length = ytest.length := by
    rw [List.length_zip, List.length_map, hlen, Nat.min_self]
  have hq : (0 : ℚ) < (ytest.length : ℚ) := by exact_mod_cast hn
  refine ⟨?_, ?_, ?_⟩
  · show 0 ≤ accuracy_score ytest (Xtest.map predict)
    unfold accuracy_score
    positivity
  · show accuracy_score ytest (Xtest.map predict) ≤ 1
    unfold accuracy_score
    have hle : matchCount ytest (Xtest.map predict) ≤ ytest.length := by
      rw [matchCount, ← hzl]
      exact List.countP_le_length _
    exact (div_le_one hq).mpr (by exact_mod_cast hle)
  · intro hall
    show accuracy_score ytest (Xtest.map predict) = 1
    have hc : matchCount ytest (Xtest.map predict) = ytest.length := by
      rw [matchCount, ← hzl]
      refine List.countP_eq_length.mpr ?_
      intro pr hpr
      obtain ⟨⟨i, hi⟩, hget⟩ := List.mem_iff_get.mp hpr
      have hiy : i < ytest.length := hzl ▸ hi
      have hix : i < Xtest.length := by omega
      have hpair : pr = (ytest.get ⟨i, hiy⟩,
          predict (Xtest.get ⟨i, hix⟩)) := by
        rw [← hget]
        simp [List.get_eq_getElem, List.getElem_zip, List.getElem_map]
      have hcorrect := hall i hix
      rw [List.getD_eq_getElem Xtest [] hix, List.getD_eq_getElem ytest 0 hiy]
        at hcorrect
      rw [hpair]
      simp [List.get_eq_getElem, hcorrect]
    unfold accuracy_score
    rw [hc]
    exact div_self (ne_of_gt hq)

/-- Witness for C8 on a trivially separable two-point test set and the
threshold model a tree fits on it. -/
theorem evaluate_model_accuracy_witness :
    0 < ([1, 0] : Labels).length ∧
    (evaluate_model (fun r => if r.getD 0 0 > 0 then 1 else 0)
      [[1], [-1]] [1, 0] "t").accuracy = 1 := by
  refine ⟨by norm_num, ?_⟩
  refine (evaluate_model_accuracy (fun r => if r.getD 0 0 > 0 then 1 else 0)
    [[1], [-1]] [1, 0] "t" (by norm_num) rfl).2.2 ?_
  decide

/-- C10: only the Persister writes files — the generator, preprocessor,
trainer and evaluator stages all have empty write lists — so a run that
fails before the persistence stage leaves the artifacts directory
untouched. -/
theorem writes_only_in_persist (o : StageOutcomes)
    (savEvents : List WriteEvent) (s : Stage) (e : ErrKind)
    (h : runStages o = .error (s, e)) (hs : s ≠ Stage.persistArtifacts) :
    pipelineWrites o savEvents = [] ∧
    generatorWrites = [] ∧ preprocessorWrites = [] ∧
    trainerWrites = [] ∧ evaluatorWrites = [] := by
  refine ⟨?_, rfl, rfl, rfl, rfl⟩
  cases hg : o.gen with
  | error e' => simp [pipelineWrites, hg, generatorWrites]
  | ok u =>
    cases u
    cases hp : o.pre with
    | error e' =>
      simp [pipelineWrites, hg, hp, generatorWrites, preprocessorWrites]
    | ok u =>
      cases u
      cases hf : o.fit with
      | error e' =>
        simp [pipelineWrites, hg, hp, hf, generatorWrites,
          preprocessorWrites, trainerWrites]
      | ok u =>
        cases u
        cases hv : o.eva with
        | error e' =>
          simp [pipelineWrites, hg, hp, hf, hv, generatorWrites,
            preprocessorWrites, trainerWrites, evaluatorWrites]
        | ok u =>
          cases u
          cases hsv : o.sav with
          | error e' =>
            simp only [runStages, hg, hp, hf, hv, hsv] at h
            cases h
            exact absurd rfl hs
          | ok u =>
            cases u
            simp only [runStages, hg, hp, hf, hv, hsv] at h
            exact Except.noConfusion h

/-- Witness for C10: a run failing at the generator stage writes nothing. -/
theorem writes_only_in_persist_witness :
    runStages ⟨Except.error (ErrKind.invalidArgument "bad"),
        .ok (), .ok (), .ok (), .ok ()⟩ =
      Except.error (Stage.generateData, ErrKind.invalidArgument "bad") ∧
    pipelineWrites ⟨Except.error (ErrKind.invalidArgument "bad"),
        .ok (), .ok (), .ok (), .ok ()⟩ [] = [] :=
  ⟨rfl, (writes_only_in_persist
    ⟨Except.error (ErrKind.invalidArgument "bad"), .ok (), .ok (), .ok (), .ok ()⟩
    [] Stage.generateData (ErrKind.invalidArgument "bad") rfl (by decide)).1⟩

end MLOps
